import Mathlib

/-!
Shallow embedding of the parcel resolution and spatial ingestion pipeline of
the Business_Intelligence_Tool_For_TW repository.

Modelled source files:
* `src/app.py` — the Flask resolver (`find_parcel`: ByIdentifier and
  ByCoordinate branches) and the data-source registry routes
  (`toggle_source`).
* `src/backend/scripts/etl_ingest_parcels.py` — the ETL pipeline
  (`process_and_load`): CRS reprojection, column filtering and renaming,
  chunked `to_postgis(..., if_exists="replace")` load.
* `src/backend/app/api/v1/parcels.py` and
  `src/backend/app/api/v1/endpoints/parcels.py` — the two variants of the
  polygon-analysis (`analyze_area`) and point-lookup (`lookup_parcel`)
  SQL queries over the `parcels` table of `src/backend/app/models/parcel.py`.

External collaborators (the remote ArcGIS feature source, PostGIS spatial
predicates, the geodesy reprojection transform) are parameters of the
embedded functions: the code delegates to them and only their observable
result shape matters to the embedded control flow.
-/

namespace BITool

/-- An attribute / cell value as it appears in a feature or a dataframe
column: string, number, geometry payload, or null (`None`/`NaN`). -/
inductive Val where
  | str (s : String)
  | num (n : Int)
  | geom (p : Int × Int)
  | null
deriving DecidableEq, Repr

/-- One GIS feature as returned by the remote feature source:
`{attributes, geometry}`. -/
structure Feature where
  attributes : List (String × Val)
  geometry : Option (Int × Int)
deriving DecidableEq, Repr

/-- A single-quote character, used by `find_parcel` to build the
quoted-string form of an attribute query. -/
def sq : String := String.singleton (Char.ofNat 39)

/-- The ordered candidate query list built by `find_parcel` in `src/app.py`
(line 124): `SERIAL_NUM = {parcel}`, `SERIAL_NUM = '{parcel}'`,
`PropertyID = '{parcel}'`. -/
def identifierQueries (parcel : String) : List String :=
  ["SERIAL_NUM = " ++ parcel,
   "SERIAL_NUM = " ++ sq ++ parcel ++ sq,
   "PropertyID = " ++ sq ++ parcel ++ sq]

/-- The remote feature source, as observed by the resolver: a where-clause
string is answered by `none` (the request raised or the response was not
ok) or `some fs` (an ok response whose feature list is `fs`). -/
def FeatSource : Type := String → Option (List Feature)

/-- The ByIdentifier loop of `find_parcel` (lines 125-130): for each query,
on an ok response with a non-empty feature list return it (the route wraps
it as `{"result": ...}`); on an exception or an empty/missing feature list
continue with the next query; when the list is exhausted return the
`{"error": "Parcel not found"}, 404` response.  The second component is
the trace of queries actually issued to the source. -/
def tryQueries (source : FeatSource) :
    List String → (Except (String × Nat) (List Feature)) × List String
  | [] => (Except.error ("Parcel not found", 404), [])
  | q :: qs =>
    match source q with
    | some fs =>
      if fs.isEmpty then
        let r := tryQueries source qs
        (r.1, q :: r.2)
      else (Except.ok fs, [q])
    | none =>
      let r := tryQueries source qs
      (r.1, q :: r.2)

/-- ByIdentifier entry of `find_parcel`: build the candidate queries and
run the loop. -/
def find_parcel_by_id (source : FeatSource) (parcel : String) :
    (Except (String × Nat) (List Feature)) × List String :=
  tryQueries source (identifierQueries parcel)

/-- A candidate query succeeds when the source answers ok with at least
one feature. -/
def succeeds (source : FeatSource) (q : String) : Prop :=
  ∃ fs, source q = some fs ∧ fs ≠ []

instance (source : FeatSource) (q : String) : Decidable (succeeds source q) :=
  match h : source q with
  | none =>
    isFalse (fun ⟨_, h1, _⟩ => by rw [h] at h1; exact Option.noConfusion h1)
  | some fs =>
    if hfs : fs = [] then
      isFalse (fun ⟨gs, h1, h2⟩ => by
        rw [h] at h1
        exact h2 ((Option.some.inj h1).symm ▸ hfs))
    else isTrue ⟨fs, h, hfs⟩

/-- Replace a source-call error (`none`) by an empty ok result: the
behaviour the spec demands for network/timeout failures. -/
def errAsEmpty (source : FeatSource) : FeatSource :=
  fun q => match source q with
  | none => some []
  | some fs => some fs

/-- The ByCoordinate branch of `find_parcel` (lines 133-136): one spatial
intersects query with the point `(lon, lat)`; a non-empty feature list is
returned as-is, an empty one yields `{"error": "No parcel found"}, 404`,
and a raised request propagates as a server error. -/
def find_parcel_by_coord (spatial : String × String → Option (List Feature))
    (lat lon : String) : Except (String × Nat) (List Feature) :=
  match spatial (lon, lat) with
  | none => Except.error ("exception", 500)
  | some fs =>
    if fs.isEmpty then Except.error ("No parcel found", 404) else Except.ok fs

/-! ### Data-source registry (`src/app.py` lines 96-102) -/

/-- One entry of the data-source registry file `sources.json`: the `id`
and `active` fields read and written by `toggle_source`, plus the
remaining persisted fields (`name`, `url`, ...), carried opaquely. -/
structure SourceRec where
  id : String
  active : Bool
  fields : List (String × Val)
deriving DecidableEq, Repr

/-- The loop body of `toggle_source`: for each entry whose `id` equals
`source_id`, flip `active`; every other entry is untouched. -/
def toggle_source (source_id : String) (sources : List SourceRec) :
    List SourceRec :=
  sources.map fun s =>
    if s.id = source_id then { s with active := !s.active } else s

/-- The whole `/api/sources/<source_id>/toggle` route: load the registry,
apply the loop, save the result, and answer `{"success": True}`
unconditionally. -/
def toggle_source_route (source_id : String) (store : List SourceRec) :
    List SourceRec × Bool :=
  (toggle_source source_id store, true)

/-! ### ETL pipeline (`src/backend/scripts/etl_ingest_parcels.py`) -/

/-- `COLUMN_MAPPING` of the ETL script: shapefile column → database
column. -/
def COLUMN_MAPPING : List (String × String) :=
  [("SERIAL_NUM", "parcel_id"),
   ("SITEADDR", "site_address"),
   ("OWNER", "owner_name"),
   ("LANDVAL", "land_value"),
   ("BLDGVAL", "building_value"),
   ("YRBUILT", "year_built"),
   ("ACRES", "acres"),
   ("ZONING", "zoning_code")]

/-- `keep_cols` of `process_and_load`: the mapping keys plus the geometry
column. -/
def keep_cols : List String := COLUMN_MAPPING.map Prod.fst ++ ["geometry"]

/-- `gdf.rename(columns=COLUMN_MAPPING)` on a single column name: a mapped
name is replaced, any other name is kept. -/
def renameFn (c : String) : String := (COLUMN_MAPPING.lookup c).getD c

/-- A GeoDataFrame as read from the shapefile: a frame-level CRS tag, the
column names, and the rows (each row aligned positionally with `cols`). -/
structure GeoDataFrame where
  crs : String
  cols : List String
  rows : List (List Val)
deriving DecidableEq, Repr

/-- Apply the geodesy transform `T` to a geometry cell, leave every other
cell unchanged. -/
def mapGeom (T : Int × Int → Int × Int) : Val → Val
  | .geom p => .geom (T p)
  | v => v

/-- `gdf.to_crs(epsg=4326)`: every geometry is transformed by the geodesy
library `T` and the frame CRS becomes `EPSG:4326`. -/
def toCrs (T : Int × Int → Int × Int) (gdf : GeoDataFrame) : GeoDataFrame :=
  { crs := "EPSG:4326", cols := gdf.cols,
    rows := gdf.rows.map (fun r => r.map (mapGeom T)) }

/-- Step 1 of `process_and_load` (lines 76-78): reproject exactly when the
source CRS string differs from `EPSG:4326`. -/
def reprojectStep (T : Int × Int → Int × Int) (gdf : GeoDataFrame) :
    GeoDataFrame :=
  if gdf.crs ≠ "EPSG:4326" then toCrs T gdf else gdf

/-- Read the cell of column `c` in a row of `gdf` (positional lookup of the
column name). -/
def getCol (gdf : GeoDataFrame) (c : String) (row : List Val) : Val :=
  match gdf.cols.findIdx? (fun x => x == c) with
  | some i => row.getD i Val.null
  | none => Val.null

/-- `gdf[existing_cols]`: keep exactly the named columns, in the given
order. -/
def selectCols (gdf : GeoDataFrame) (cs : List String) : GeoDataFrame :=
  { crs := gdf.crs, cols := cs,
    rows := gdf.rows.map (fun r => cs.map (fun c => getCol gdf c r)) }

/-- Column renaming applied to the whole frame. -/
def renameCols (gdf : GeoDataFrame) : GeoDataFrame :=
  { crs := gdf.crs, cols := gdf.cols.map renameFn, rows := gdf.rows }

/-- Steps 1-3 of `process_and_load`: reproject if needed, keep only the
mapped columns that exist (`existing_cols`), rename them to the database
schema.  `gdf.where(pd.notnull(gdf), None)` maps NaN cells to null, which
is the identity here since null cells are already `Val.null`. -/
def processGdf (T : Int × Int → Int × Int) (gdf : GeoDataFrame) :
    GeoDataFrame :=
  let g1 := reprojectStep T gdf
  let existing := keep_cols.filter (fun c => g1.cols.contains c)
  renameCols (selectCols g1 existing)

/-- A PostGIS table: column names, the declared SRID of the geometry
column, and the rows. -/
structure PGTable where
  cols : List String
  srid : Nat
  rows : List (List Val)
deriving DecidableEq, Repr

/-- The database state visible to the query path: the `parcels` table, or
no such table. -/
structure DB where
  parcels : Option PGTable
deriving DecidableEq, Repr

/-- Split a list into chunks of `n` (fuel-driven so that it computes;
`chunks` below supplies fuel `l.length`, which is always enough). -/
def chunksF (n : Nat) : Nat → List α → List (List α)
  | 0, _ => []
  | _, [] => []
  | fuel + 1, x :: xs => (x :: xs.take (n - 1)) :: chunksF n fuel (xs.drop (n - 1))

/-- Split a list into chunks of `n` rows, as the chunked insert of
`to_postgis(..., chunksize=n)` does. -/
def chunks (n : Nat) (l : List α) : List (List α) := chunksF n l.length l

/-- The chunked insert loop: chunk `i` either fails (`fails i`) — the run
stops, nothing further is inserted — or its rows are appended.  Returns
whether every chunk was inserted, and the rows actually inserted. -/
def loadChunksGo (fails : Nat → Bool) : Nat → List (List (List Val)) →
    Bool × List (List Val)
  | _, [] => (true, [])
  | i, c :: cs =>
    if fails i then (false, [])
    else
      let r := loadChunksGo fails (i + 1) cs
      (r.1, c ++ r.2)

/-- How many leading chunks load before the first failure: counts from
index `i` over `m` chunks. -/
def loadedCount (fails : Nat → Bool) : Nat → Nat → Nat
  | _, 0 => 0
  | i, m + 1 => if fails i then 0 else loadedCount fails (i + 1) m + 1

/-- `gdf.to_postgis("parcels", engine, if_exists="replace", ...,
dtype=Geometry(srid=4326), chunksize=1000)`: the existing `parcels` table
is dropped and recreated from the frame's columns (with the declared SRID
4326), then the rows are inserted in chunks of 1000; a chunk failure stops
the insert, leaving the recreated table holding exactly the chunks
inserted before the failure.  Returns success and the new database
state. -/
def toPostgisReplace (fails : Nat → Bool) (gdf : GeoDataFrame) (_db : DB) :
    Bool × DB :=
  let r := loadChunksGo fails 0 (chunks 1000 gdf.rows)
  (r.1, { parcels := some { cols := gdf.cols, srid := 4326, rows := r.2 } })

/-- `process_and_load` of the ETL script: transform the frame, then replace
the `parcels` table with it.  (On success the script additionally
recreates the spatial and identifier indexes, which does not change the
table contents.) -/
def process_and_load (T : Int × Int → Int × Int) (fails : Nat → Bool)
    (gdf : GeoDataFrame) (db : DB) : Bool × DB :=
  toPostgisReplace fails (processGdf T gdf) db

/-- The mapped columns found in a dataset: the `COLUMN_MAPPING` keys
present among the frame's columns. -/
def mappedCols (gdf : GeoDataFrame) : List String :=
  (COLUMN_MAPPING.map Prod.fst).filter (fun c => gdf.cols.contains c)

/-! ### Query path: the two endpoint variants

`src/backend/app/main.py` mounts the router of
`src/backend/app/api/v1/endpoints/parcels.py`; the router of
`src/backend/app/api/v1/parcels.py` is the other variant of the same two
operations.  Both read the `parcels` table declared in
`src/backend/app/models/parcel.py`. -/

/-- A row of the `parcels` table as declared by the `Parcel` model:
`parcel_id` primary key, nullable attribute columns, the stored
`total_value` column, and the geometry column (held opaquely as the
stored representation). -/
structure ParcelRow where
  parcel_id : String
  site_address : Option String
  owner_name : Option String
  zoning_code : Option String
  land_value : Option Int
  building_value : Option Int
  total_value : Option Int
  year_built : Option Int
  acres : Option Int
  investment_score : Option Int
  geometry : Option String
deriving DecidableEq, Repr

/-- The row shape selected by `analyze_area` / `lookup_parcel` of
`src/backend/app/api/v1/parcels.py`: `total_value` is the SQL expression
`COALESCE(land_value, 0) + COALESCE(building_value, 0)`, hence never
null. -/
structure RowA where
  parcel_id : String
  site_address : Option String
  owner_name : Option String
  zoning_code : Option String
  land_value : Option Int
  building_value : Option Int
  total_value : Int
  year_built : Option Int
  acres : Option Int
  geometry : Option String
deriving DecidableEq, Repr

/-- The row shape selected by `analyze_area` / `lookup_parcel` of
`src/backend/app/api/v1/endpoints/parcels.py`: `total_value` is the stored
column.  (The analyze query there also selects an `id` column that the
declared `Parcel` model does not have; it is omitted here.) -/
structure RowB where
  parcel_id : String
  site_address : Option String
  owner_name : Option String
  zoning_code : Option String
  total_value : Option Int
  acres : Option Int
  investment_score : Option Int
  geometry_json : Option String
deriving DecidableEq, Repr

/-- Build one `RowA` from a table row: the read-time recomputation of
`total_value` from its two components, nulls coalesced to 0. -/
def selectRowA (asGeoJson : Option String → Option String) (r : ParcelRow) :
    RowA :=
  { parcel_id := r.parcel_id, site_address := r.site_address,
    owner_name := r.owner_name, zoning_code := r.zoning_code,
    land_value := r.land_value, building_value := r.building_value,
    total_value := r.land_value.getD 0 + r.building_value.getD 0,
    year_built := r.year_built, acres := r.acres,
    geometry := asGeoJson r.geometry }

/-- `analyze_area` of `src/backend/app/api/v1/parcels.py`: rows of the
`parcels` table intersecting the request polygon (`ST_Intersects` is the
PostGIS predicate, a parameter), `LIMIT 500`, each row with `total_value`
recomputed by `COALESCE` and geometry rendered by `ST_AsGeoJSON`. -/
def analyze_area_api (stIntersects : Option String → String → Bool)
    (asGeoJson : Option String → Option String)
    (parcels : List ParcelRow) (geojson : String) : List RowA :=
  ((parcels.filter (fun r => stIntersects r.geometry geojson)).take 500).map
    (selectRowA asGeoJson)

/-- `lookup_parcel` of `src/backend/app/api/v1/parcels.py`: the first row
whose geometry `ST_Contains` the click point `(lng, lat)`, `LIMIT 1`, with
the same `COALESCE`d `total_value`. -/
def lookup_parcel_api (stContains : Option String → String × String → Bool)
    (asGeoJson : Option String → Option String)
    (parcels : List ParcelRow) (lat lng : String) : Option RowA :=
  ((parcels.filter (fun r => stContains r.geometry (lng, lat))).take 1).head?
    |>.map (selectRowA asGeoJson)

/-- `analyze_area` of `src/backend/app/api/v1/endpoints/parcels.py` (the
variant mounted by `main.py`): intersecting rows, `LIMIT 200`, each row
carrying the *stored* `total_value` column. -/
def analyze_area_endpoints (stIntersects : Option String → String → Bool)
    (asGeoJson : Option String → Option String)
    (parcels : List ParcelRow) (geojson : String) : List RowB :=
  ((parcels.filter (fun r => stIntersects r.geometry geojson)).take 200).map
    (fun r =>
      { parcel_id := r.parcel_id, site_address := r.site_address,
        owner_name := r.owner_name, zoning_code := r.zoning_code,
        total_value := r.total_value, acres := r.acres,
        investment_score := r.investment_score,
        geometry_json := asGeoJson r.geometry })

/-! ### Concrete fixtures for witnesses and counterexamples -/

/-- The identity geodesy transform (the transform is irrelevant whenever
the fixture's CRS is already `EPSG:4326`). -/
def idT : Int × Int → Int × Int := fun p => p

/-- A failure pattern under which no chunk insert fails. -/
def neverFails : Nat → Bool := fun _ => false

/-- A failure pattern under which the very first chunk insert fails. -/
def failFirst : Nat → Bool := fun i => i == 0

/-- The complete dataset live before an ingestion run. -/
def prevTable : PGTable :=
  { cols := ["parcel_id", "geometry"], srid := 4326,
    rows := [[Val.str "OLD-1", Val.geom (10, 20)]] }

/-- A database whose live `parcels` table is `prevTable`. -/
def db0 : DB := { parcels := some prevTable }

/-- A one-row source dataset, already in `EPSG:4326`. -/
def gdfOne : GeoDataFrame :=
  { crs := "EPSG:4326", cols := ["SERIAL_NUM", "geometry"],
    rows := [[Val.str "NEW-1", Val.geom (1, 2)]] }

/-- A dataset with zero mapped columns (only an unrecognized attribute and
the geometry). -/
def gdfZero : GeoDataFrame :=
  { crs := "EPSG:4326", cols := ["FOO", "geometry"],
    rows := [[Val.str "x", Val.geom (0, 0)]] }

/-- A dataset whose first record has a null `SERIAL_NUM` (absent
`parcel_id`). -/
def gdfNullId : GeoDataFrame :=
  { crs := "EPSG:4326", cols := ["SERIAL_NUM", "geometry"],
    rows := [[Val.null, Val.geom (0, 0)], [Val.str "A1", Val.geom (1, 1)]] }

/-- A dataset tagged with the Clark County source CRS. -/
def gdf2927 : GeoDataFrame :=
  { crs := "EPSG:2927", cols := ["SERIAL_NUM", "geometry"],
    rows := [[Val.str "B1", Val.geom (7, 8)]] }

/-- The table produced by ingesting `gdf2927`. -/
def tbl2927 : PGTable :=
  ((process_and_load idT neverFails gdf2927 db0).2.parcels).getD
    { cols := [], srid := 0, rows := [] }

/-- A feature stored under the numeric `SERIAL_NUM` field. -/
def fNum : Feature :=
  { attributes := [("SERIAL_NUM", Val.num 123)], geometry := some (3, 4) }

/-- A feature stored under the string `PropertyID` field. -/
def fStr : Feature :=
  { attributes := [("PropertyID", Val.str "123")], geometry := some (5, 6) }

/-- A source where identifier `123` matches both as `SERIAL_NUM = 123`
(first candidate) and as `PropertyID = '123'` (third candidate). -/
def sourceBoth : FeatSource := fun q =>
  if q = "SERIAL_NUM = 123" then some [fNum]
  else if q = "PropertyID = " ++ sq ++ "123" ++ sq then some [fStr]
  else some []

/-- The feature holding identifier 986035637 as a quoted string. -/
def f986 : Feature :=
  { attributes := [("PropertyID", Val.str "986035637")], geometry := none }

/-- A source where identifier `986035637` matches only as the quoted
string `PropertyID = '986035637'`. -/
def sourceQuotedOnly : FeatSource := fun q =>
  if q = "PropertyID = " ++ sq ++ "986035637" ++ sq then some [f986]
  else some []

/-- A source on which every call raises (network/timeout). -/
def sourceAllErr : FeatSource := fun _ => none

/-- A spatial source answering every point query with the single feature
`f986`, whose identifier lives only under `PropertyID`. -/
def spatial986 : String × String → Option (List Feature) :=
  fun _ => some [f986]

/-- A stored row whose `total_value` column (100) has drifted from its two
components (1 + 2). -/
def rowDrift : ParcelRow :=
  { parcel_id := "P1", site_address := none, owner_name := none,
    zoning_code := none, land_value := some 1, building_value := some 2,
    total_value := some 100, year_built := none, acres := some 4,
    investment_score := some 0, geometry := some "G1" }

/-- A spatial predicate that holds everywhere. -/
def intersectsAll : Option String → String → Bool := fun _ _ => true

/-- A point predicate that holds everywhere. -/
def containsAll : Option String → String × String → Bool := fun _ _ => true

/-- Geometry rendering used by the fixtures (the claims do not depend on
the rendering). -/
def geoJsonId : Option String → Option String := fun g => g

/-- A registry with two entries sharing the id `"1"` and one entry with id
`"2"`. -/
def regFix : List SourceRec :=
  [{ id := "1", active := true, fields := [("name", Val.str "a")] },
   { id := "2", active := false, fields := [("name", Val.str "b")] },
   { id := "1", active := false, fields := [("url", Val.str "u")] }]

/-! ### Helper lemmas: the ByIdentifier loop -/

/-- If no candidate before index `i` succeeds and candidate `i` answers
with a non-empty feature list, the loop stops at candidate `i`: it returns
exactly that candidate's features and its query trace is the first `i + 1`
candidates only. -/
theorem tryQueries_first (source : FeatSource) :
    ∀ (qs : List String) (i : Nat) (fs : List Feature),
      (∀ j, j < i → ¬ succeeds source (qs.getD j "")) →
      i < qs.length →
      source (qs.getD i "") = some fs → fs ≠ [] →
      tryQueries source qs = (Except.ok fs, qs.take (i + 1)) := by
  intro qs
  induction qs with
  | nil => intro i fs _ hi _ _; exact absurd hi (Nat.not_lt_zero i)
  | cons q qs ih =>
    intro i fs hprev hi hsrc hne
    cases i with
    | zero =>
      simp only [List.getD_cons_zero] at hsrc
      cases fs with
      | nil => exact absurd rfl hne
      | cons a as => simp [tryQueries, hsrc]
    | succ j =>
      have h0 : ¬ succeeds source q := by
        have h := hprev 0 (Nat.succ_pos j)
        simpa using h
      have hprevs : ∀ k, k < j → ¬ succeeds source (qs.getD k "") := by
        intro k hk
        have h := hprev (k + 1) (Nat.succ_lt_succ hk)
        simpa using h
      have hj : j < qs.length := Nat.lt_of_succ_lt_succ hi
      have hsrcs : source (qs.getD j "") = some fs := by
        simpa using hsrc
      have hrec := ih j fs hprevs hj hsrcs hne
      match hq : source q with
      | none => simp [tryQueries, hq, hrec]
      | some gs =>
        have hgs : gs = [] := by
          by_contra hgs
          exact h0 ⟨gs, hq, hgs⟩
        subst hgs
        simp [tryQueries, hq, hrec]

/-- If every candidate fails (error or empty), the loop tries them all and
ends in the not-found error. -/
theorem tryQueries_exhausted (source : FeatSource) :
    ∀ qs : List String, (∀ q ∈ qs, ¬ succeeds source q) →
      tryQueries source qs = (Except.error ("Parcel not found", 404), qs) := by
  intro qs
  induction qs with
  | nil => intro _; rfl
  | cons q qs ih =>
    intro h
    have h0 : ¬ succeeds source q := h q (List.mem_cons_self q qs)
    have hrec := ih (fun x hx => h x (List.mem_cons_of_mem q hx))
    match hq : source q with
    | none => simp [tryQueries, hq, hrec]
    | some gs =>
      have hgs : gs = [] := by
        by_contra hgs
        exact h0 ⟨gs, hq, hgs⟩
      subst hgs
      simp [tryQueries, hq, hrec]

/-- Turning every source-call error into an empty ok result does not change
the loop at all: neither the outcome nor the query trace. -/
theorem tryQueries_errAsEmpty (source : FeatSource) :
    ∀ qs : List String,
      tryQueries (errAsEmpty source) qs = tryQueries source qs := by
  intro qs
  induction qs with
  | nil => rfl
  | cons q qs ih =>
    match hq : source q with
    | none =>
      have he : errAsEmpty source q = some [] := by simp [errAsEmpty, hq]
      simp [tryQueries, hq, he, ih]
    | some gs =>
      have he : errAsEmpty source q = some gs := by simp [errAsEmpty, hq]
      simp [tryQueries, hq, he, ih]

/-! ### Claim theorems: the resolver -/

/-- C3 (confirmed): ByIdentifier resolution tries the candidate list in its
fixed order and terminates on the first candidate whose query returns at
least one feature — the result is that candidate's features, the query
trace stops at that candidate, and later candidates (which may also match)
are never issued. -/
theorem c3_first_candidate_wins (source : FeatSource) (parcel : String)
    (i : Nat) (fs : List Feature)
    (hprev : ∀ j, j < i →
      ¬ succeeds source ((identifierQueries parcel).getD j ""))
    (hi : i < (identifierQueries parcel).length)
    (hsrc : source ((identifierQueries parcel).getD i "") = some fs)
    (hne : fs ≠ []) :
    find_parcel_by_id source parcel =
      (Except.ok fs, (identifierQueries parcel).take (i + 1)) :=
  tryQueries_first source (identifierQueries parcel) i fs hprev hi hsrc hne

/-- C3 witness: identifier `123` matches both as `SERIAL_NUM = 123` and as
`PropertyID = '123'`; resolution returns the `SERIAL_NUM` match after one
query, even though the third candidate would also succeed. -/
theorem c3_first_candidate_wins_witness :
    find_parcel_by_id sourceBoth "123" =
      (Except.ok [fNum], (identifierQueries "123").take 1) ∧
    succeeds sourceBoth ((identifierQueries "123").getD 2 "") :=
  ⟨c3_first_candidate_wins sourceBoth "123" 0 [fNum]
      (fun j hj => absurd hj (Nat.not_lt_zero j)) (by decide) (by decide)
      (by decide),
   by decide⟩

/-- C4 counterexample: the candidate list of `find_parcel` for identifier
`986035637` has exactly three candidates, and on a source that matches
only the quoted string under `PropertyID` the resolver succeeds on the
third (and last) candidate — there is no fourth candidate. -/
theorem c4_cex_three_candidates :
    (identifierQueries "986035637").length = 3 ∧
    find_parcel_by_id sourceQuotedOnly "986035637" =
      (Except.ok [f986], identifierQueries "986035637") :=
  ⟨rfl, rfl⟩

/-- C4 (amended): for an identifier matched only as a quoted string under
`PropertyID`, resolution succeeds exactly on the third candidate of the
three-candidate list (`SERIAL_NUM` numeric, `SERIAL_NUM` quoted,
`PropertyID` quoted): all three queries are issued and the third's
features are returned, the earlier two having returned no feature. -/
theorem c4_success_on_third_candidate (source : FeatSource)
    (fs : List Feature)
    (h0 : ¬ succeeds source ((identifierQueries "986035637").getD 0 ""))
    (h1 : ¬ succeeds source ((identifierQueries "986035637").getD 1 ""))
    (hsrc : source ((identifierQueries "986035637").getD 2 "") = some fs)
    (hne : fs ≠ []) :
    find_parcel_by_id source "986035637" =
      (Except.ok fs, identifierQueries "986035637") := by
  have hw : ∀ j, j < 2 →
      ¬ succeeds source ((identifierQueries "986035637").getD j "") := by
    intro j hj
    match j, hj with
    | 0, _ => exact h0
    | 1, _ => exact h1
  exact tryQueries_first source (identifierQueries "986035637") 2 fs hw
    (by decide) hsrc hne

/-- C4 witness: the concrete quoted-only source, resolved through the
amended theorem. -/
theorem c4_success_on_third_candidate_witness :
    find_parcel_by_id sourceQuotedOnly "986035637" =
      (Except.ok [f986], identifierQueries "986035637") :=
  c4_success_on_third_candidate sourceQuotedOnly [f986]
    (by decide) (by decide) (by decide) (by decide)

/-- C5 (confirmed): a source-call error on a candidate is treated exactly
as an empty result for that candidate (outcome and trace are unchanged
when every error is replaced by an empty result), and when every candidate
is exhausted without a feature the resolver surfaces the terminal
`"Parcel not found"` failure with HTTP status 404 to the caller. -/
theorem c5_error_resilience_and_not_found (source : FeatSource)
    (parcel : String) :
    (find_parcel_by_id (errAsEmpty source) parcel =
      find_parcel_by_id source parcel) ∧
    ((∀ q ∈ identifierQueries parcel, ¬ succeeds source q) →
      find_parcel_by_id source parcel =
        (Except.error ("Parcel not found", 404), identifierQueries parcel)) :=
  ⟨tryQueries_errAsEmpty source (identifierQueries parcel),
   fun h => tryQueries_exhausted source (identifierQueries parcel) h⟩

/-- C5 witness: a source that errors on every call exhausts all candidates
and surfaces the 404 not-found failure. -/
theorem c5_error_resilience_and_not_found_witness :
    find_parcel_by_id sourceAllErr "986035637" =
      (Except.error ("Parcel not found", 404),
       identifierQueries "986035637") :=
  (c5_error_resilience_and_not_found sourceAllErr "986035637").2 (by decide)

/-- C9 counterexample: a successful ByCoordinate resolution returns the
winning feature exactly as the source supplied it — here the identifier
lives only under `PropertyID` and the returned record has no
`SERIAL_NUM` (primary identifier) attribute at all: no normalization into
the primary identifier slot happens. -/
theorem c9_cex_no_primary_slot :
    find_parcel_by_coord spatial986 "45.63" "-122.65" = Except.ok [f986] ∧
    f986.attributes.lookup "SERIAL_NUM" = none :=
  ⟨rfl, rfl⟩

/-- C9 (amended): a ByCoordinate resolution that finds at least one feature
returns the source's feature list unmodified — no identifier field is
preferred, copied, or normalized. -/
theorem c9_coord_returns_raw_features
    (spatial : String × String → Option (List Feature)) (lat lon : String)
    (fs : List Feature) (hsp : spatial (lon, lat) = some fs)
    (hne : fs ≠ []) :
    find_parcel_by_coord spatial lat lon = Except.ok fs := by
  cases fs with
  | nil => exact absurd rfl hne
  | cons a as => simp [find_parcel_by_coord, hsp]

/-- C9 amended witness: the concrete spatial source. -/
theorem c9_coord_returns_raw_features_witness :
    find_parcel_by_coord spatial986 "45.63" "-122.65" = Except.ok [f986] :=
  c9_coord_returns_raw_features spatial986 "45.63" "-122.65" [f986] rfl
    (by decide)

/-! ### Helper lemmas: the ETL pipeline -/

/-- Chunking with enough fuel loses no row: flattening the chunks gives
back the list. -/
theorem chunksF_flatten {α : Type} (n : Nat) :
    ∀ (fuel : Nat) (l : List α), l.length ≤ fuel →
      (chunksF n fuel l).flatten = l := by
  intro fuel
  induction fuel with
  | zero =>
    intro l hl
    have : l = [] := List.length_eq_zero.mp (Nat.le_zero.mp hl)
    subst this
    rfl
  | succ fuel ih =>
    intro l hl
    cases l with
    | nil => rfl
    | cons x xs =>
      have hx : (xs.drop (n - 1)).length ≤ fuel := by
        have h1 : (xs.drop (n - 1)).length ≤ xs.length := by
          rw [List.length_drop]
          exact Nat.sub_le _ _
        have h2 : xs.length ≤ fuel := Nat.lt_succ_iff.mp hl
        exact Nat.le_trans h1 h2
      calc (chunksF n (fuel + 1) (x :: xs)).flatten
          = (x :: xs.take (n - 1)) ++ (chunksF n fuel (xs.drop (n - 1))).flatten := by
            rw [chunksF, List.flatten_cons]
        _ = (x :: xs.take (n - 1)) ++ xs.drop (n - 1) := by rw [ih _ hx]
        _ = x :: xs := by rw [List.cons_append, List.take_append_drop]

/-- Chunking loses no row. -/
theorem chunks_flatten {α : Type} (n : Nat) (l : List α) :
    (chunks n l).flatten = l :=
  chunksF_flatten n l.length l (Nat.le_refl _)

/-- The insert loop succeeds exactly when every chunk loads. -/
theorem loadChunksGo_fst (fails : Nat → Bool) :
    ∀ (cs : List (List (List Val))) (i : Nat),
      (loadChunksGo fails i cs).1 =
        (loadedCount fails i cs.length == cs.length) := by
  intro cs
  induction cs with
  | nil => intro i; rfl
  | cons c cs ih =>
    intro i
    cases hf : fails i with
    | true => simp [loadChunksGo, loadedCount, hf]
    | false =>
      have h := ih (i + 1)
      simp only [loadChunksGo, hf, loadedCount, List.length_cons,
        Bool.false_eq_true, if_false]
      simp [h]

/-- The rows the insert loop commits are exactly the chunks before the
first failure, flattened. -/
theorem loadChunksGo_snd (fails : Nat → Bool) :
    ∀ (cs : List (List (List Val))) (i : Nat),
      (loadChunksGo fails i cs).2 =
        (cs.take (loadedCount fails i cs.length)).flatten := by
  intro cs
  induction cs with
  | nil => intro i; rfl
  | cons c cs ih =>
    intro i
    cases hf : fails i with
    | true => simp [loadChunksGo, loadedCount, hf]
    | false =>
      have h := ih (i + 1)
      simp only [loadChunksGo, hf, loadedCount, List.length_cons,
        Bool.false_eq_true, if_false, List.take_succ_cons, List.flatten_cons]
      rw [h]

/-- Under a failure-free load every chunk counts as loaded. -/
theorem loadedCount_never : ∀ (i m : Nat), loadedCount neverFails i m = m := by
  intro i m
  induction m generalizing i with
  | zero => rfl
  | succ m ih => simp [loadedCount, neverFails, ih]

/-- Reprojection does not touch the column set. -/
theorem reprojectStep_cols (T : Int × Int → Int × Int) (gdf : GeoDataFrame) :
    (reprojectStep T gdf).cols = gdf.cols := by
  by_cases h : gdf.crs = "EPSG:4326" <;> simp [reprojectStep, h, toCrs]

/-- Reprojection does not change the number of rows. -/
theorem reprojectStep_rows_length (T : Int × Int → Int × Int)
    (gdf : GeoDataFrame) :
    (reprojectStep T gdf).rows.length = gdf.rows.length := by
  by_cases h : gdf.crs = "EPSG:4326" <;>
    simp [reprojectStep, h, toCrs, List.length_map]

/-- The columns the pipeline outputs: the `keep_cols` present in the input,
renamed by the field map. -/
theorem processGdf_cols (T : Int × Int → Int × Int) (gdf : GeoDataFrame) :
    (processGdf T gdf).cols =
      (keep_cols.filter (fun c => gdf.cols.contains c)).map renameFn := by
  simp [processGdf, renameCols, selectCols, reprojectStep_cols]

/-- The pipeline keeps every row (it filters columns, never rows). -/
theorem processGdf_rows_length (T : Int × Int → Int × Int)
    (gdf : GeoDataFrame) :
    (processGdf T gdf).rows.length = gdf.rows.length := by
  simp only [processGdf, renameCols, selectCols, List.length_map]
  exact reprojectStep_rows_length T gdf

/-- Every column name the pipeline can output other than `geometry` is a
value of `COLUMN_MAPPING`; in particular `total_value` and (when `OWNER`
is absent) `owner_name` are never fabricated. -/
theorem processGdf_cols_from_keep (T : Int × Int → Int × Int)
    (gdf : GeoDataFrame) (c : String)
    (hc : c ∈ (processGdf T gdf).cols) :
    ∃ s, s ∈ keep_cols ∧ gdf.cols.contains s = true ∧ renameFn s = c := by
  rw [processGdf_cols] at hc
  obtain ⟨s, hs, hr⟩ := List.mem_map.mp hc
  obtain ⟨hks, hpres⟩ := List.mem_filter.mp hs
  exact ⟨s, hks, hpres, hr⟩

/-- What `process_and_load` does, in one statement: the `parcels` table is
unconditionally replaced by a table built from the transformed frame's
columns with declared SRID 4326, holding the chunks loaded before the
first failure; the run succeeds exactly when every chunk loaded; the
previous database contents play no role in the outcome. -/
theorem process_and_load_spec (T : Int × Int → Int × Int)
    (fails : Nat → Bool) (gdf : GeoDataFrame) (db : DB) :
    (process_and_load T fails gdf db).1 =
      (loadedCount fails 0 (chunks 1000 (processGdf T gdf).rows).length ==
        (chunks 1000 (processGdf T gdf).rows).length) ∧
    (process_and_load T fails gdf db).2.parcels =
      some { cols := (processGdf T gdf).cols, srid := 4326,
             rows := ((chunks 1000 (processGdf T gdf).rows).take
               (loadedCount fails 0
                 (chunks 1000 (processGdf T gdf).rows).length)).flatten } := by
  constructor
  · exact loadChunksGo_fst fails _ 0
  · show some _ = some _
    rw [loadChunksGo_snd fails _ 0]

/-! ### Claim theorems: the ETL pipeline -/

/-- C1 counterexample: with a complete previous dataset live and a batch
failure during loading, the run reports failure yet the previous dataset
is gone — the live `parcels` table after the run is the freshly created
empty table, not the previous non-empty one. -/
theorem c1_cex_previous_dataset_lost :
    (process_and_load idT failFirst gdfOne db0).1 = false ∧
    (process_and_load idT failFirst gdfOne db0).2.parcels =
      some { cols := ["parcel_id", "geometry"], srid := 4326, rows := [] } ∧
    db0.parcels = some prevTable ∧ prevTable.rows ≠ [] :=
  ⟨rfl, rfl, rfl, by decide⟩

/-- C1 (amended): a batch-load error aborts the run with a failure result,
but only after the live `parcels` table has been dropped and recreated:
the table after the run holds exactly the new batches loaded before the
first failing one (a failed run therefore exposes a partially populated —
possibly empty — table), the run succeeds exactly when every batch loads,
and the outcome is independent of the previously loaded dataset, which
never remains live. -/
theorem c1_replace_is_destructive (T : Int × Int → Int × Int)
    (fails : Nat → Bool) (gdf : GeoDataFrame) (db db2 : DB) :
    (process_and_load T fails gdf db).1 =
      (loadedCount fails 0 (chunks 1000 (processGdf T gdf).rows).length ==
        (chunks 1000 (processGdf T gdf).rows).length) ∧
    (process_and_load T fails gdf db).2.parcels =
      some { cols := (processGdf T gdf).cols, srid := 4326,
             rows := ((chunks 1000 (processGdf T gdf).rows).take
               (loadedCount fails 0
                 (chunks 1000 (processGdf T gdf).rows).length)).flatten } ∧
    (process_and_load T fails gdf db).2 =
      (process_and_load T fails gdf db2).2 :=
  ⟨(process_and_load_spec T fails gdf db).1,
   (process_and_load_spec T fails gdf db).2, rfl⟩

/-- C6 counterexample: a dataset with zero mapped columns (only an
unrecognized `FOO` column and the geometry) loads without any error —
ingestion is never schema-fatal, contradicting "fails loudly if and only
if zero mapped columns are found". -/
theorem c6_cex_zero_mapped_still_loads :
    mappedCols gdfZero = [] ∧
    (process_and_load idT neverFails gdfZero db0).1 = true :=
  ⟨rfl, rfl⟩

/-- C6 (amended): schema mapping keeps exactly the `FieldMap` columns
present in the input (absent source columns are omitted, never
fabricated), but ingestion never fails on schema grounds — even a dataset
with zero mapped columns loads; a dataset missing only the `OWNER` column
loads successfully with no `owner_name` column at all in the replaced
table (rather than a null-valued one) and no error raised. -/
theorem c6_schema_mapping_never_fatal (T : Int × Int → Int × Int)
    (gdf : GeoDataFrame) (db : DB) :
    ((processGdf T gdf).cols =
      (keep_cols.filter (fun c => gdf.cols.contains c)).map renameFn) ∧
    ((process_and_load T neverFails gdf db).1 = true) ∧
    ("OWNER" ∉ gdf.cols → "owner_name" ∉ (processGdf T gdf).cols) := by
  refine ⟨processGdf_cols T gdf, ?_, ?_⟩
  · rw [(process_and_load_spec T neverFails gdf db).1, loadedCount_never]
    simp
  · intro howner hmem
    obtain ⟨s, hks, hpres, hr⟩ := processGdf_cols_from_keep T gdf _ hmem
    have hs : s = "OWNER" := by
      have hk : s ∈ keep_cols := hks
      fin_cases hk <;> first | rfl | exact absurd hr (by decide)
    exact howner (List.elem_iff.mp (hs ▸ hpres))

/-- C6 witness: the concrete dataset `gdfZero` (no `OWNER` column) loads
with no `owner_name` column fabricated. -/
theorem c6_schema_mapping_never_fatal_witness :
    (process_and_load idT neverFails gdfZero db0).1 = true ∧
    "owner_name" ∉ (processGdf idT gdfZero).cols :=
  ⟨(c6_schema_mapping_never_fatal idT gdfZero db0).2.1,
   (c6_schema_mapping_never_fatal idT gdfZero db0).2.2 (by decide)⟩

/-- C7 (confirmed): reprojection is applied to a batch exactly when the
source CRS differs from `EPSG:4326` (equal source CRS means the
reprojection step is a no-op), the whole batch ends up tagged
`EPSG:4326` (never mixed), and every table `process_and_load` exposes
carries the declared geometry SRID 4326 — no other SRID is ever
persisted. -/
theorem c7_reproject_iff_and_srid_4326 (T : Int × Int → Int × Int)
    (gdf : GeoDataFrame) (fails : Nat → Bool) (db : DB) :
    (gdf.crs = "EPSG:4326" → reprojectStep T gdf = gdf) ∧
    (gdf.crs ≠ "EPSG:4326" → reprojectStep T gdf = toCrs T gdf) ∧
    (reprojectStep T gdf).crs = "EPSG:4326" ∧
    (∀ t, (process_and_load T fails gdf db).2.parcels = some t →
      t.srid = 4326) := by
  refine ⟨fun h => by simp [reprojectStep, h],
          fun h => by simp [reprojectStep, h], ?_, ?_⟩
  · by_cases h : gdf.crs = "EPSG:4326" <;> simp [reprojectStep, h, toCrs]
  · intro t ht
    rw [(process_and_load_spec T fails gdf db).2] at ht
    rw [← Option.some.inj ht]

/-- C7 witness: a batch tagged `EPSG:2927` goes through `to_crs` and its
ingested table carries SRID 4326. -/
theorem c7_reproject_iff_and_srid_4326_witness :
    reprojectStep idT gdf2927 = toCrs idT gdf2927 ∧ tbl2927.srid = 4326 :=
  ⟨(c7_reproject_iff_and_srid_4326 idT gdf2927 neverFails db0).2.1
      (by decide),
   (c7_reproject_iff_and_srid_4326 idT gdf2927 neverFails db0).2.2.2
      tbl2927 rfl⟩

/-- C8 counterexample: a dataset whose first record has a null
`SERIAL_NUM` loads in full — the identifier-less record is inserted with
a null `parcel_id`, not skipped, and nothing is counted or logged. -/
theorem c8_cex_null_id_record_loaded :
    (process_and_load idT neverFails gdfNullId db0).1 = true ∧
    (process_and_load idT neverFails gdfNullId db0).2.parcels =
      some { cols := ["parcel_id", "geometry"], srid := 4326,
             rows := [[Val.null, Val.geom (0, 0)],
                      [Val.str "A1", Val.geom (1, 1)]] } :=
  ⟨rfl, rfl⟩

/-- C8 (amended): the loader never skips a record: a failure-free run
loads every row of the transformed dataset — including rows whose
`parcel_id` is null — so per-record identifier absence neither aborts the
run nor removes the record, and no skip count exists. -/
theorem c8_no_record_ever_skipped (T : Int × Int → Int × Int)
    (gdf : GeoDataFrame) (db : DB) :
    (process_and_load T neverFails gdf db).1 = true ∧
    (process_and_load T neverFails gdf db).2.parcels =
      some { cols := (processGdf T gdf).cols, srid := 4326,
             rows := (processGdf T gdf).rows } ∧
    (processGdf T gdf).rows.length = gdf.rows.length := by
  refine ⟨?_, ?_, processGdf_rows_length T gdf⟩
  · rw [(process_and_load_spec T neverFails gdf db).1, loadedCount_never]
    simp
  · rw [(process_and_load_spec T neverFails gdf db).2, loadedCount_never,
      List.take_length, chunks_flatten]

/-! ### Claim theorems: total_value and the registry -/

/-- C2 counterexample: the polygon-analysis operation mounted by
`main.py` (`analyze_area` of `endpoints/parcels.py`) returns the stored
`total_value` column as-is: a row whose stored `total_value` (100) has
drifted from its components (1 + 2 = 3) is returned with the drifted
value. -/
theorem c2_cex_stored_total_value_drifts :
    analyze_area_endpoints intersectsAll geoJsonId [rowDrift] "POLY" =
      [{ parcel_id := "P1", site_address := none, owner_name := none,
         zoning_code := none, total_value := some 100, acres := some 4,
         investment_score := some 0, geometry_json := some "G1" }] ∧
    rowDrift.land_value.getD 0 + rowDrift.building_value.getD 0 = 3 :=
  ⟨rfl, rfl⟩

/-- C2 (amended): `total_value` equals `land_value + building_value`
(nulls as zero) for every record returned by the `api/v1/parcels.py`
polygon-analysis and point-lookup operations, which recompute it at read
time with `COALESCE`; the `endpoints/parcels.py` variants instead return
the stored `total_value` column, which ingestion never even creates (no
ingestion run outputs a `total_value` column), so the stored value can
drift from the components. -/
theorem c2_total_value_read_time_only
    (stI : Option String → String → Bool)
    (stC : Option String → String × String → Bool)
    (asJ : Option String → Option String)
    (parcels : List ParcelRow) (geojson lat lng : String) :
    (∀ r ∈ analyze_area_api stI asJ parcels geojson,
      r.total_value = r.land_value.getD 0 + r.building_value.getD 0) ∧
    (∀ r, lookup_parcel_api stC asJ parcels lat lng = some r →
      r.total_value = r.land_value.getD 0 + r.building_value.getD 0) ∧
    (∀ (T : Int × Int → Int × Int) (gdf : GeoDataFrame),
      "total_value" ∉ (processGdf T gdf).cols) := by
  refine ⟨?_, ?_, ?_⟩
  · intro r hr
    obtain ⟨x, _, rfl⟩ := List.mem_map.mp hr
    rfl
  · intro r hr
    simp only [lookup_parcel_api, Option.map_eq_some'] at hr
    obtain ⟨x, _, rfl⟩ := hr
    rfl
  · intro T gdf hmem
    obtain ⟨s, hks, _, hr⟩ := processGdf_cols_from_keep T gdf _ hmem
    have hk : s ∈ keep_cols := hks
    fin_cases hk <;> exact absurd hr (by decide)

/-- C2 witness: the read-time recomputed row built from the drifted stored
row satisfies the component sum. -/
theorem c2_total_value_read_time_only_witness :
    (selectRowA geoJsonId rowDrift).total_value =
      (selectRowA geoJsonId rowDrift).land_value.getD 0 +
        (selectRowA geoJsonId rowDrift).building_value.getD 0 :=
  (c2_total_value_read_time_only intersectsAll containsAll geoJsonId
      [rowDrift] "POLY" "45.63" "-122.65").1
    (selectRowA geoJsonId rowDrift) (by decide)

/-- Toggling an id that no entry carries leaves the registry unchanged. -/
theorem toggle_source_no_match (sid : String) :
    ∀ sources : List SourceRec, (∀ s ∈ sources, s.id ≠ sid) →
      toggle_source sid sources = sources := by
  intro sources
  induction sources with
  | nil => intro _; rfl
  | cons s rest ih =>
    intro h
    have hs : s.id ≠ sid := h s (List.mem_cons_self s rest)
    have hrest := ih (fun x hx => h x (List.mem_cons_of_mem s hx))
    simp only [toggle_source, List.map_cons, if_neg hs]
    rw [show List.map (fun s => if s.id = sid
        then { s with active := !s.active } else s) rest =
      toggle_source sid rest from rfl, hrest]

/-- C10 (confirmed): the toggle operation flips the `active` flag of every
entry whose id equals `source_id` and leaves the `id` and the remaining
fields of every entry — and non-matching entries entirely — unchanged;
when no entry matches, the persisted registry equals the loaded one and
the route still answers success. -/
theorem c10_toggle_frame (sid : String) (sources : List SourceRec) :
    ((toggle_source sid sources).length = sources.length) ∧
    (∀ (i : Nat) (s s2 : SourceRec), sources[i]? = some s →
      (toggle_source sid sources)[i]? = some s2 →
      s2.id = s.id ∧ s2.fields = s.fields ∧
      s2.active = (if s.id = sid then !s.active else s.active)) ∧
    ((∀ s ∈ sources, s.id ≠ sid) →
      toggle_source_route sid sources = (sources, true)) := by
  refine ⟨List.length_map sources _, ?_, ?_⟩
  · intro i s s2 hs hs2
    rw [toggle_source, List.getElem?_map, hs] at hs2
    have h := Option.some.inj hs2
    by_cases hid : s.id = sid
    · rw [← h]
      simp [hid]
    · rw [← h]
      simp [hid]
  · intro h
    rw [toggle_source_route, toggle_source_no_match sid sources h]

/-- C10 witness: on the concrete registry, toggling id `1` flips both
entries carrying id `1` while preserving their other fields, and toggling
the unknown id `9` persists the registry unchanged yet reports success. -/
theorem c10_toggle_frame_witness :
    (toggle_source "1" regFix).length = regFix.length ∧
    ({ id := "1", active := false,
       fields := [("name", Val.str "a")] } : SourceRec).id =
      ({ id := "1", active := true,
         fields := [("name", Val.str "a")] } : SourceRec).id ∧
    toggle_source_route "9" regFix = (regFix, true) :=
  ⟨(c10_toggle_frame "1" regFix).1,
   ((c10_toggle_frame "1" regFix).2.1 0
      { id := "1", active := true, fields := [("name", Val.str "a")] }
      { id := "1", active := false, fields := [("name", Val.str "a")] }
      rfl rfl).1,
   (c10_toggle_frame "9" regFix).2.2 (by decide)⟩

end BITool
